import Mathlib

/-!
Shallow embedding of the attestation-bound key-exchange and decryption
pipeline of `cnap/core/keybroker.py` and `cnap/core/model.py`.

Python byte strings are modelled as `List Nat` (every byte is < 256 in
Python; the Lean definitions are stated for arbitrary `Nat` entries and
all theorems hold for the byte range in particular).  External library
calls (RSA key generation, the CCNP quote, HTTP transport, OAEP and
AES-GCM from `cryptography`) are modelled as components of an
environment record; everything the repository's own code computes
(base64, slicing, string manipulation, control flow) is translated
directly and is executable.
-/

abbrev Bytes := List Nat

/-- Error taxonomy: each constructor corresponds to one Python exception
class raised (or raisable) along the modelled paths.
`invalidArgument` is `ValueError`, `runtimeError` is `RuntimeError`,
`typeError` is `TypeError`, `connectionError` is the builtin
`ConnectionError`, `binasciiError` is `binascii.Error` from `b64decode`,
`decryptionError` is the `cryptography` failure of `private_key.decrypt`,
and `structError` is `struct.error` from `struct.unpack`. -/
inductive CnapError where
  | invalidArgument (msg : String)
  | runtimeError (msg : String)
  | typeError (msg : String)
  | connectionError (msg : String)
  | binasciiError (msg : String)
  | decryptionError (msg : String)
  | structError (msg : String)
  deriving DecidableEq

/-- The base64 alphabet used by Python's `base64.b64encode`/`b64decode`. -/
def b64alphabet : List Char :=
  "ABCDEFGHIJKLMNOPQRSTUVWXYZabcdefghijklmnopqrstuvwxyz0123456789+/".toList

/-- Character of a 6-bit group. -/
def b64c (n : Nat) : Char := b64alphabet.getD n 'A'

/-- Value of a base64 character, `none` for a character outside the alphabet. -/
def b64v (c : Char) : Option Nat := b64alphabet.findIdx? (fun d => d = c)

/-- Core of `base64.b64encode`: three input bytes become four characters,
with `=` padding for a 1- or 2-byte tail. -/
def b64encodeAux : List Nat → List Char
  | [] => []
  | [a] =>
    let a := a % 256
    [b64c (a / 4), b64c (a % 4 * 16), '=', '=']
  | [a, b] =>
    let a := a % 256
    let b := b % 256
    [b64c (a / 4), b64c (a % 4 * 16 + b / 16), b64c (b % 16 * 4), '=']
  | a :: b :: c :: rest =>
    let a' := a % 256
    let b' := b % 256
    let c' := c % 256
    b64c (a' / 4) :: b64c (a' % 4 * 16 + b' / 16) ::
      b64c (b' % 16 * 4 + c' / 64) :: b64c (c' % 64) :: b64encodeAux rest

/-- Python `base64.b64encode(bs)` decoded to a UTF-8 string. -/
def b64encode (bs : Bytes) : String := String.mk (b64encodeAux bs)

/-- Core of `base64.b64decode`: `none` models a raised `binascii.Error`
(bad character or bad padding). -/
def b64decodeAux : List Char → Option Bytes
  | [] => some []
  | [c1, c2, '=', '='] => do
    let v1 ← b64v c1
    let v2 ← b64v c2
    some [v1 * 4 + v2 / 16]
  | [c1, c2, c3, '='] => do
    let v1 ← b64v c1
    let v2 ← b64v c2
    let v3 ← b64v c3
    some [v1 * 4 + v2 / 16, v2 % 16 * 16 + v3 / 4]
  | c1 :: c2 :: c3 :: c4 :: rest => do
    let v1 ← b64v c1
    let v2 ← b64v c2
    let v3 ← b64v c3
    let v4 ← b64v c4
    let tl ← b64decodeAux rest
    some ([v1 * 4 + v2 / 16, v2 % 16 * 16 + v3 / 4, v3 % 4 * 64 + v4] ++ tl)
  | _ => none

/-- Python `base64.b64decode` on a string. -/
def b64decode (s : String) : Option Bytes := b64decodeAux s.toList

/-- Little-endian unsigned 32-bit integer read at offset `i`, as done by
`struct.unpack('<3I', ...)` on the 12-byte header (offsets 0, 4, 8). -/
def leU32at (l : Bytes) (i : Nat) : Nat :=
  l.getD i 0 + 256 * l.getD (i + 1) 0 + 65536 * l.getD (i + 2) 0 +
    16777216 * l.getD (i + 3) 0

/-- Source method `AmberKeyBrokerClient.decrypt_data(encrypted_data, key)`.

The AES-GCM construction
`Cipher(algorithms.AES(key), modes.GCM(iv, tag)).decryptor()` together
with `update(data) + finalize()` is external library code and is passed
in as `aes : key → iv → data → tag → Except CnapError Bytes` (the
library may raise `ValueError` for invalid parameters or `InvalidTag`).

Slicing follows Python semantics exactly: `encrypted_data[x : -tag_len]`
and `encrypted_data[-tag_len:]` use a negative index, so when
`tag_len = 0` the stop/start position is `0` (not `len`): the data slice
is empty and the tag slice is the whole buffer.  `struct.unpack` raises
`struct.error` when fewer than 12 bytes are available. -/
def decrypt_data (aes : Bytes → Bytes → Bytes → Bytes → Except CnapError Bytes)
    (encrypted_data key : Option Bytes) : Except CnapError Bytes :=
  match encrypted_data with
  | none => .error (.invalidArgument "The encrypted data can not be None")
  | some ed =>
    match key with
    | none => .error (.invalidArgument "The key can not be None")
    | some k =>
      if ed.length < 12 then
        .error (.structError "unpack requires a buffer of 12 bytes")
      else
        let iv_len := leU32at ed 0
        let tag_len := leU32at ed 4
        let iv := (ed.take (iv_len + 12)).drop 12
        let cut := if tag_len = 0 then 0 else ed.length - tag_len
        let data := (ed.take cut).drop (iv_len + 12)
        let tag := ed.drop cut
        aes k iv data tag

/-- Modelled from the spec's words, for comparison with `decrypt_data`:
`iv = envelope[12 : 12+iv_len]`,
`ciphertext = envelope[12+iv_len : len(envelope)-tag_len]`,
`tag = envelope[len(envelope)-tag_len :]`, reading the positions as
mathematical indices clamped to the buffer (truncated subtraction). -/
def decrypt_data_spec (aes : Bytes → Bytes → Bytes → Bytes → Except CnapError Bytes)
    (ed k : Bytes) : Except CnapError Bytes :=
  if ed.length < 12 then
    .error (.structError "unpack requires a buffer of 12 bytes")
  else
    let iv_len := leU32at ed 0
    let tag_len := leU32at ed 4
    let iv := (ed.take (iv_len + 12)).drop 12
    let data := (ed.take (ed.length - tag_len)).drop (iv_len + 12)
    let tag := ed.drop (ed.length - tag_len)
    aes k iv data tag

/-- An AES stand-in that just exposes the slices it receives; used to
separate calls that pass different slice arguments. -/
def aesObs : Bytes → Bytes → Bytes → Bytes → Except CnapError Bytes :=
  fun _ iv data tag => .ok (iv ++ data ++ tag)

/-- An ephemeral RSA key pair as returned by
`rsa.generate_private_key(...)`: an abstract private-key handle plus the
DER-encoded SubjectPublicKeyInfo bytes produced by
`public_key().public_bytes(Encoding.DER, PublicFormat.SubjectPublicKeyInfo)`. -/
structure KeyPair where
  privId : Nat
  derPub : Bytes
  deriving DecidableEq

/-- An HTTP response from the broker, at the level the client observes:
status code and the JSON body already parsed to string fields
(`resp.json()` on the transfer endpoint yields a flat string-valued
object). -/
structure HttpResponse where
  status : Nat
  body : List (String × String)
  deriving DecidableEq

/-- Outcome of one `requests.post` call: either the request raised
`requests.exceptions.ConnectionError` or a response came back. -/
inductive PostOutcome where
  | connFail
  | response (r : HttpResponse)
  deriving DecidableEq

/-- Observable side effects of one `get_key` call, in order:
RSA key generation (with the exponent and modulus size passed to the
library), the CCNP quote request (with the nonce string passed to
`Quote.get_quote`), and each HTTP POST to the transfer endpoint. -/
inductive Event where
  | keygen (exponent : Nat) (size : Nat)
  | quote (nonce : String)
  | post (url : String)
  deriving DecidableEq

/-- Environment of external collaborators used by
`AmberKeyBrokerClient`: RSA key generation (a function of the exponent
and key size passed to `rsa.generate_private_key`), `Quote.get_quote`
(a function of the nonce; `none` models a `None` quote), the network
(outcome of the i-th POST attempt, 0-based), `private_key.decrypt` with
OAEP/SHA-256 (`none` models the library raising), and the AES-GCM
decryption primitive. -/
structure KbsEnv where
  genKeyPair : Nat → Nat → KeyPair
  getQuote : String → Option Bytes
  post : Nat → PostOutcome
  oaepDecrypt : Nat → Bytes → Option Bytes
  aesGcmDecrypt : Bytes → Bytes → Bytes → Bytes → Except CnapError Bytes

/-- The retry loop of `get_key`:
`for _ in range(3): try: resp = requests.post(...); if resp.status_code
in [200]: break; except ConnectionError: pass`.
`resp` keeps the last successfully returned response across iterations
(an attempt that raises leaves it unchanged); only a 200 breaks early.
Returns the POST events and the final value of `resp`. -/
def retryLoop (env : KbsEnv) (url : String) :
    Nat → Nat → Option HttpResponse → (List Event × Option HttpResponse)
  | 0, _, resp => ([], resp)
  | fuel + 1, attempt, resp =>
    match env.post attempt with
    | .connFail =>
      let r := retryLoop env url fuel (attempt + 1) resp
      (.post url :: r.fst, r.snd)
    | .response hr =>
      if hr.status = 200 then ([.post url], some hr)
      else
        let r := retryLoop env url fuel (attempt + 1) (some hr)
        (.post url :: r.fst, r.snd)

/-- Field lookup in a parsed JSON body (`"k" in resp_body` / `resp_body['k']`). -/
def lookupJson (body : List (String × String)) (k : String) : Option String :=
  (body.find? (fun p => p.fst == k)).map (fun p => p.snd)

/-- Source method `AmberKeyBrokerClient.get_key(server_url, key_id)`.

Returns the list of observable events together with the result
(`Except.error` models a raised exception).  Mirrors the source line by
line: `None` checks, RSA key generation with exponent 65537 and size
3072, `user_data = b64encode(pubkey_der)`, `Quote.get_quote(user_data)`,
the 3-attempt POST loop to `{server_url}/keys/{key_id}/transfer`, the
final status check, the `wrapped_key`/`wrapped_swk` presence check,
base64 decoding, OAEP unwrap of the SWK, and `decrypt_data` of the
wrapped key under the SWK. -/
def get_key (env : KbsEnv) (server_url key_id : Option String) :
    List Event × Except CnapError Bytes :=
  match server_url with
  | none => ([], .error (.invalidArgument "KBS server url can not be None"))
  | some su =>
    match key_id with
    | none => ([], .error (.invalidArgument "KBS key id can not be None"))
    | some kid =>
      let private_key := env.genKeyPair 65537 3072
      let pubkey_der := private_key.derPub
      let user_data := b64encode pubkey_der
      let evs0 := [Event.keygen 65537 3072, Event.quote user_data]
      match env.getQuote user_data with
      | none => (evs0, .error (.runtimeError "Get TDX Quote failed"))
      | some tdquote =>
        let _quote := b64encode tdquote
        let amber_api := su ++ "/keys/" ++ kid ++ "/transfer"
        let lp := retryLoop env amber_api 3 0 none
        let answer : Except CnapError Bytes :=
          match lp.snd with
          | none => .error (.runtimeError "Unexpected response from Amber KBS")
          | some resp =>
            if resp.status ≠ 200 then
              .error (.runtimeError "Unexpected response from Amber KBS")
            else
              match lookupJson resp.body "wrapped_key",
                    lookupJson resp.body "wrapped_swk" with
              | some wk, some wswk =>
                match b64decode wk, b64decode wswk with
                | some wrapped_key, some wrapped_swk =>
                  match env.oaepDecrypt private_key.privId wrapped_swk with
                  | none => .error (.decryptionError "Decryption failed")
                  | some swk =>
                    decrypt_data env.aesGcmDecrypt (some wrapped_key) (some swk)
                | _, _ => .error (.binasciiError "Invalid base64-encoded string")
              | _, _ => .error (.runtimeError "Empty key response from Amber KBS")
        (evs0 ++ lp.fst, answer)

/-- Number of HTTP POST attempts recorded in a trace. -/
def countPosts (evs : List Event) : Nat :=
  evs.countP fun e =>
    match e with
    | .post _ => true
    | _ => false

/-- Whether a POST outcome is an HTTP 200 response. -/
def is200 : PostOutcome → Bool
  | .connFail => false
  | .response r => r.status == 200

/-- Whether a `get_key` result is a success. -/
def isOkE : Except CnapError Bytes → Bool
  | .ok _ => true
  | .error _ => false

/-- Whether a `get_key` result is a raised `ValueError` on the argument
checks (the spec's `InvalidArgument`). -/
def isInvalidArg : Except CnapError Bytes → Bool
  | .error (.invalidArgument _) => true
  | _ => false

/-- A parsed JSON metadata value as delivered by `resp.json()` in
`Model.get_model_info` (string, boolean or integer leaves suffice for
the fields this code touches). -/
inductive JVal where
  | jStr (v : String)
  | jBool (v : Bool)
  | jInt (v : Int)
  deriving DecidableEq

/-- Python `str(...)` / f-string rendering of a JSON value. -/
def pyStr : JVal → String
  | .jStr v => v
  | .jBool true => "True"
  | .jBool false => "False"
  | .jInt n => toString n

/-- Python truthiness of `value(key)` (`None` and missing are falsy). -/
def truthy : Option JVal → Bool
  | none => false
  | some (.jStr v) => v ≠ ""
  | some (.jBool b) => b
  | some (.jInt n) => n ≠ 0

/-- Source method `Model.decrypt_model(kbs, kbs_url, key_id, model_data)`.

The three `ValueError(...)` expressions in the source construct
exception objects without a `raise`, so they have no observable effect
and do not appear here.  When `kbs == "amber"` the Amber client is used;
any other value (including `None`) falls off the end of the function,
which in Python returns `None` — modelled as `.ok none`. -/
def decrypt_model (env : KbsEnv) (kbs kbs_url key_id : Option JVal)
    (model_data : Option Bytes) :
    List Event × Except CnapError (Option Bytes) :=
  if kbs = some (JVal.jStr "amber") then
    let gk := get_key env (kbs_url.map pyStr) (key_id.map pyStr)
    match gk.snd with
    | .error e => (gk.fst, .error e)
    | .ok key =>
      match decrypt_data env.aesGcmDecrypt model_data (some key) with
      | .error e => (gk.fst, .error e)
      | .ok d => (gk.fst, .ok (some d))
  else ([], .ok none)

/-- Characters stripped by Python `str.strip()` (ASCII whitespace). -/
def isPySpace (c : Char) : Bool :=
  c = ' ' || c = '\t' || c = '\n' || c = '\x0b' || c = '\x0c' || c = '\r'

/-- Python `str.strip()` on a character list. -/
def pyStrip (l : List Char) : List Char :=
  ((l.dropWhile isPySpace).reverse.dropWhile isPySpace).reverse

/-- Python `s.replace(".enc", "")`: remove every (left-to-right, non-overlapping)
occurrence of the 4-character substring `.enc`. -/
def removeEnc : List Char → List Char
  | '.' :: 'e' :: 'n' :: 'c' :: rest => removeEnc rest
  | c :: rest => c :: removeEnc rest
  | [] => []

/-- Python `s.split(slash)[-1]`: the characters after the last slash (the whole
string when there is no `/`).  `acc` holds the current segment reversed. -/
def lastSegAux : List Char → List Char → List Char
  | acc, [] => acc.reverse
  | acc, c :: rest =>
    if c = '/' then lastSegAux [] rest else lastSegAux (c :: acc) rest

/-- The staging filename computed by `Model.get_model_info`:
`value("url").split('/')[-1].replace(".enc", "").strip()`. -/
def model_filename_of (url : String) : String :=
  String.mk (pyStrip (removeEnc (lastSegAux [] url.toList)))

/-- Modelled from the spec's words, for comparison with
`model_filename_of`: the final path segment of the URL with a trailing
`.enc` suffix stripped (and nothing else changed). -/
def spec_filename_of (url : String) : String :=
  let seg := lastSegAux [] url.toList
  if ['.', 'e', 'n', 'c'].isSuffixOf seg then
    String.mk (seg.take (seg.length - 4))
  else String.mk seg

/-- Source class `ModelMetrics`: the source constructs it as `ModelMetrics(0, 0, 0, 0, 0)`
with Python integer literals. -/
structure ModelMetrics where
  accuracy : Int
  precision : Int
  «recall» : Int
  f1_score : Int
  loss : Int
  deriving DecidableEq

/-- Source class `ModelDetails(name, version, framework, target, dtype)`; each field is
whatever `value(...)` returned (possibly `None`). -/
structure ModelDetails where
  name : Option JVal
  version : Option JVal
  framework : Option JVal
  target : Option JVal
  dtype : Option JVal
  deriving DecidableEq

/-- Source class `ModelInfo(id, details, uploaded_date, metrics)`; the source passes the
integer `0` as the uploaded date. -/
structure ModelInfo where
  id : Option JVal
  details : ModelDetails
  uploaded_date : Int
  metrics : ModelMetrics
  deriving DecidableEq

/-- Environment of `Model.get_model_info`: status of the metadata GET,
the parsed metadata (the `value` lambda: `none` means the key is missing
or JSON null), and the status and content of the model binary GET. -/
structure ModelEnv where
  metaStatus : Nat
  meta : String → Option JVal
  dlStatus : Nat
  dlContent : Bytes

/-- The state `Model.get_model_info` leaves behind on success: `self._path`,
the bytes written to that path, and `self._model_info`. -/
structure ModelState where
  path : String
  written : Bytes
  model_info : ModelInfo
  deriving DecidableEq

/-- Source method `Model.get_model_info()`.

Mirrors the source: metadata GET status check, `id`/`url` presence
check, binary GET status check, staging filename from the URL's last
path segment with `.enc` occurrences removed and whitespace stripped,
the `value("encrypted")` truthiness branch calling `decrypt_model`,
the file write (writing the `None` returned by a fall-through
`decrypt_model` raises `TypeError`), and construction of `ModelInfo`
with `ModelMetrics(0,0,0,0,0)` and uploaded date `0`. -/
def get_model_info (kenv : KbsEnv) (env : ModelEnv) :
    Except CnapError ModelState :=
  if env.metaStatus ≠ 200 then
    .error (.connectionError
      ("Connect model server failed, error code: " ++ toString env.metaStatus))
  else
    match env.meta "id", env.meta "url" with
    | some idv, some urlv =>
      if env.dlStatus ≠ 200 then
        .error (.connectionError
          ("Download model from server failed, error code: " ++ toString env.dlStatus))
      else
        match urlv with
        | .jStr url =>
          let model_data := env.dlContent
          let path := "/tmp/" ++ model_filename_of url
          let dataE : Except CnapError (Option Bytes) :=
            if truthy (env.meta "encrypted") then
              (decrypt_model kenv (env.meta "kbs") (env.meta "kbs_url")
                (env.meta "key_id") (some model_data)).snd
            else .ok (some model_data)
          match dataE with
          | .error e => .error e
          | .ok none =>
            .error (.typeError "a bytes-like object is required, not NoneType")
          | .ok (some d) =>
            .ok
              { path := path
                written := d
                model_info :=
                  { id := some idv
                    details :=
                      { name := env.meta "name"
                        version := env.meta "version"
                        framework := env.meta "framework"
                        target := env.meta "target"
                        dtype := env.meta "dtype" }
                    uploaded_date := 0
                    metrics :=
                      { accuracy := 0, precision := 0, «recall» := 0
                        f1_score := 0, loss := 0 } } }
        | _ => .error (.typeError "the url value is not a string")
    | _, _ => .error (.runtimeError "Model meta data is not valid")

/-- Path of a successful retrieval (empty string for a failure). -/
def pathOf : Except CnapError ModelState → String
  | .ok st => st.path
  | .error _ => ""

/-- A fixed key pair for concrete environments. -/
def kp0 : KeyPair := ⟨0, []⟩

/-- Base64 of a 12-byte all-zero envelope (header only, `iv_len = tag_len
= data_len = 0`), used as a well-formed broker response field. -/
def wk16 : String := b64encode (List.replicate 12 0)

/-- A neutral broker environment: quote generation fails, the network is
down, decryption fails.  Used where the broker is never (successfully)
reached. -/
def kbs0 : KbsEnv :=
  { genKeyPair := fun _ _ => kp0
    getQuote := fun _ => none
    post := fun _ => .connFail
    oaepDecrypt := fun _ _ => none
    aesGcmDecrypt := fun _ _ _ _ => .error (.decryptionError "Decryption failed") }

/-- Broker environment whose first POST gets an HTTP 404 and whose second
gets an HTTP 200 with a well-formed body. -/
def retryEnv : KbsEnv :=
  { genKeyPair := fun _ _ => kp0
    getQuote := fun _ => some []
    post := fun n =>
      if n = 0 then .response ⟨404, []⟩
      else .response ⟨200, [("wrapped_key", wk16), ("wrapped_swk", wk16)]⟩
    oaepDecrypt := fun _ _ => some (List.replicate 16 1)
    aesGcmDecrypt := fun _ _ _ _ => .ok [5] }

/-- Broker environment where every POST attempt raises a connection error. -/
def connFailEnv : KbsEnv :=
  { genKeyPair := fun _ _ => kp0
    getQuote := fun _ => some []
    post := fun _ => .connFail
    oaepDecrypt := fun _ _ => none
    aesGcmDecrypt := fun _ _ _ _ => .error (.decryptionError "Decryption failed") }

/-- Broker environment with two connection failures followed by an HTTP
200 carrying a well-formed body. -/
def twoFailEnv : KbsEnv :=
  { genKeyPair := fun _ _ => kp0
    getQuote := fun _ => some []
    post := fun n =>
      if n ≤ 1 then .connFail
      else .response ⟨200, [("wrapped_key", wk16), ("wrapped_swk", wk16)]⟩
    oaepDecrypt := fun _ _ => some (List.replicate 16 1)
    aesGcmDecrypt := fun _ _ _ _ => .ok [5] }

/-- Envelope with `iv_len = 0`, `tag_len = 0`, `data_len = 1` and one
payload byte: the `tag_len = 0` corner where Python negative slicing and
the spec's arithmetic slicing disagree. -/
def edZ : Bytes := [0, 0, 0, 0, 0, 0, 0, 0, 1, 0, 0, 0, 7]

/-- Envelope with `iv_len = 12`, `tag_len = 16` and an empty body. -/
def ed3w : Bytes := [12, 0, 0, 0, 16, 0, 0, 0, 0, 0, 0, 0]

/-- 13-byte envelope with `tag_len = 6` (the tag region reaches back into
the header) and `data_len = 0`. -/
def e81 : Bytes := [0, 0, 0, 0, 6, 0, 0, 0, 0, 0, 0, 0, 99]

/-- Same as `e81` except for byte 8 (the low byte of `data_len`). -/
def e82 : Bytes := [0, 0, 0, 0, 6, 0, 0, 0, 1, 0, 0, 0, 99]

/-- 13-byte envelope with `tag_len = 1` and `data_len = 0`. -/
def e8w1 : Bytes := [0, 0, 0, 0, 1, 0, 0, 0, 0, 0, 0, 0, 50]

/-- Same as `e8w1` except for byte 8 (the low byte of `data_len`). -/
def e8w2 : Bytes := [0, 0, 0, 0, 1, 0, 0, 0, 9, 0, 0, 0, 50]

/-- Metadata environment: unencrypted model at a URL whose filename
contains `.enc` in the middle. -/
def env9 : ModelEnv :=
  { metaStatus := 200
    meta := fun k =>
      if k == "id" then some (.jStr "m1")
      else if k == "url" then some (.jStr "http://h/a.enc.bin")
      else none
    dlStatus := 200
    dlContent := [1, 2, 3] }

/-- The state `get_model_info` produces for `env9`. -/
def st9 : ModelState :=
  { path := "/tmp/a.bin"
    written := [1, 2, 3]
    model_info :=
      { id := some (.jStr "m1")
        details := ⟨none, none, none, none, none⟩
        uploaded_date := 0
        metrics := ⟨0, 0, 0, 0, 0⟩ } }

/-- Metadata environment: unencrypted model at a URL ending in `.enc`. -/
def env9w : ModelEnv :=
  { metaStatus := 200
    meta := fun k =>
      if k == "id" then some (.jStr "m2")
      else if k == "url" then some (.jStr "http://h/b.enc")
      else none
    dlStatus := 200
    dlContent := [7] }

/-- The state `get_model_info` produces for `env9w`. -/
def st9w : ModelState :=
  { path := "/tmp/b"
    written := [7]
    model_info :=
      { id := some (.jStr "m2")
        details := ⟨none, none, none, none, none⟩
        uploaded_date := 0
        metrics := ⟨0, 0, 0, 0, 0⟩ } }



/-! ## Helper lemmas about the retry loop -/

theorem countPosts_append (a b : List Event) :
    countPosts (a ++ b) = countPosts a + countPosts b :=
  List.countP_append _ _ _

theorem countPosts_cons_post (url : String) (evs : List Event) :
    countPosts (Event.post url :: evs) = countPosts evs + 1 := by
  simp [countPosts, List.countP_cons]

theorem countPosts_retryLoop_le (env : KbsEnv) (url : String) :
    ∀ fuel a r, countPosts (retryLoop env url fuel a r).fst ≤ fuel := by
  intro fuel
  induction fuel with
  | zero => intro a r; simp [retryLoop, countPosts]
  | succ n ih =>
    intro a r
    rcases h : env.post a with _ | hr
    · have hle := ih (a + 1) r
      have hstep : (retryLoop env url (n + 1) a r).fst =
          Event.post url :: (retryLoop env url n (a + 1) r).fst := by
        simp [retryLoop, h]
      rw [hstep, countPosts_cons_post]
      omega
    · by_cases hs : hr.status = 200
      · simp [retryLoop, h, hs, countPosts]
      · have hle := ih (a + 1) (some hr)
        have hstep : (retryLoop env url (n + 1) a r).fst =
            Event.post url :: (retryLoop env url n (a + 1) (some hr)).fst := by
          simp [retryLoop, h, hs]
        rw [hstep, countPosts_cons_post]
        omega

theorem countPosts_retryLoop_two (env : KbsEnv) (url : String)
    (r : Option HttpResponse) :
    countPosts (retryLoop env url 2 1 r).fst =
      if is200 (env.post 1) then 1 else 2 := by
  rcases h1 : env.post 1 with _ | r1
  · rcases h2 : env.post 2 with _ | r2
    · simp [retryLoop, h1, h2, countPosts, is200]
    · by_cases hs2 : r2.status = 200 <;>
        simp [retryLoop, h1, h2, countPosts, is200, hs2]
  · by_cases hs1 : r1.status = 200
    · simp [retryLoop, h1, countPosts, is200, hs1]
    · rcases h2 : env.post 2 with _ | r2
      · simp [retryLoop, h1, h2, countPosts, is200, hs1]
      · by_cases hs2 : r2.status = 200 <;>
          simp [retryLoop, h1, h2, countPosts, is200, hs1, hs2]

theorem countPosts_retryLoop_three (env : KbsEnv) (url : String)
    (r : Option HttpResponse) :
    countPosts (retryLoop env url 3 0 r).fst =
      if is200 (env.post 0) then 1
      else if is200 (env.post 1) then 2 else 3 := by
  rcases h0 : env.post 0 with _ | r0
  · have hcf : is200 PostOutcome.connFail = false := rfl
    have hstep : (retryLoop env url 3 0 r).fst =
        Event.post url :: (retryLoop env url 2 1 r).fst := by
      simp [retryLoop, h0]
    rw [hstep, countPosts_cons_post, countPosts_retryLoop_two]
    by_cases hb : is200 (env.post 1) = true
    · simp [hb, hcf]
    · rw [Bool.not_eq_true] at hb
      simp [hb, hcf]
  · by_cases hs0 : r0.status = 200
    · have ht : is200 (PostOutcome.response r0) = true := by simp [is200, hs0]
      have hstep : (retryLoop env url 3 0 r).fst = [Event.post url] := by
        simp [retryLoop, h0, hs0]
      rw [hstep]
      simp [ht, countPosts]
    · have hcf : is200 (PostOutcome.response r0) = false := by simp [is200, hs0]
      have hstep : (retryLoop env url 3 0 r).fst =
          Event.post url :: (retryLoop env url 2 1 (some r0)).fst := by
        simp [retryLoop, h0, hs0]
      rw [hstep, countPosts_cons_post, countPosts_retryLoop_two]
      by_cases hb : is200 (env.post 1) = true
      · simp [hb, hcf]
      · rw [Bool.not_eq_true] at hb
        simp [hb, hcf]

theorem retryLoop_all_connFail (env : KbsEnv) (url : String)
    (h0 : env.post 0 = .connFail) (h1 : env.post 1 = .connFail)
    (h2 : env.post 2 = .connFail) :
    retryLoop env url 3 0 none = ([.post url, .post url, .post url], none) := by
  simp [retryLoop, h0, h1, h2]

theorem retryLoop_two_connFail_then_200 (env : KbsEnv) (url : String)
    (r : HttpResponse)
    (h0 : env.post 0 = .connFail) (h1 : env.post 1 = .connFail)
    (h2 : env.post 2 = .response r) (hs : r.status = 200) :
    retryLoop env url 3 0 none = ([.post url, .post url, .post url], some r) := by
  simp [retryLoop, h0, h1, h2, hs]

/-! ## C1 -/

/-- C1: every `get_key` call with non-None arguments first generates an
RSA key pair with public exponent 65537 and modulus size 3072 (≥ 3072)
bits, and the nonce passed to the quote request — the binding data of
the attestation evidence — is exactly the base64 encoding of the
DER-encoded SubjectPublicKeyInfo of that same call's public key. -/
theorem c1_fresh_key_binding (env : KbsEnv) (su kid : String) :
    ∃ tl, (get_key env (some su) (some kid)).fst =
      Event.keygen 65537 3072 ::
        Event.quote (b64encode (env.genKeyPair 65537 3072).derPub) :: tl := by
  rcases hq : env.getQuote (b64encode (env.genKeyPair 65537 3072).derPub) with _ | q
  · exact ⟨[], by simp [get_key, hq]⟩
  · exact ⟨(retryLoop env (su ++ "/keys/" ++ kid ++ "/transfer") 3 0 none).fst,
      by simp [get_key, hq]⟩

/-! ## C2 -/

/-- C2 as stated is false: a non-200 HTTP response is not terminal.  With
a first attempt answered by HTTP 404 and a second by HTTP 200, `get_key`
issues a second POST after the non-200 response and succeeds. -/
theorem c2_counterexample :
    countPosts (get_key retryEnv (some "https://kbs") (some "key1")).fst = 2 ∧
    (get_key retryEnv (some "https://kbs") (some "key1")).snd = .ok [5] :=
  ⟨by decide, rfl⟩

/-- C2 amended: in `get_key`'s broker exchange a retry is issued both
after a connection-level failure and after a non-200 HTTP response; only
an HTTP 200 stops the loop immediately (and attempts are capped at 3).
Stated as an exact characterisation of the number of POSTs: one more
than the number of leading non-200 outcomes, capped at 3.  The
hypothesis states that the quote step succeeded, so that the broker
exchange is reached at all. -/
theorem c2_retry_policy (env : KbsEnv) (su kid : String)
    (hq : ∃ q, env.getQuote (b64encode (env.genKeyPair 65537 3072).derPub) = some q) :
    countPosts (get_key env (some su) (some kid)).fst =
      if is200 (env.post 0) then 1
      else if is200 (env.post 1) then 2 else 3 := by
  obtain ⟨q, hq⟩ := hq
  have hfst : (get_key env (some su) (some kid)).fst =
      [Event.keygen 65537 3072,
        Event.quote (b64encode (env.genKeyPair 65537 3072).derPub)] ++
        (retryLoop env (su ++ "/keys/" ++ kid ++ "/transfer") 3 0 none).fst := by
    simp [get_key, hq]
  rw [hfst, countPosts_append, countPosts_retryLoop_three]
  simp [countPosts]

/-- Witness for `c2_retry_policy` at the concrete environment `retryEnv`
(404 then 200): both sides evaluate to 2. -/
theorem c2_retry_policy_witness :
    countPosts (get_key retryEnv (some "https://kbs") (some "key1")).fst =
      if is200 (retryEnv.post 0) then 1
      else if is200 (retryEnv.post 1) then 2 else 3 :=
  c2_retry_policy retryEnv "https://kbs" "key1" ⟨[], rfl⟩

/-! ## C6 -/

/-- C6 as stated is false for empty strings: `get_key` only rejects
`None`.  With `server_url = ""` the call performs key generation and the
quote request (non-empty trace) and does not fail with the argument
`ValueError`. -/
theorem c6_counterexample :
    (get_key kbs0 (some "") (some "id")).fst =
      [Event.keygen 65537 3072, Event.quote ""] ∧
    isInvalidArg (get_key kbs0 (some "") (some "id")).snd = false :=
  ⟨rfl, rfl⟩

/-- C6 amended: `get_key` fails with `ValueError` (the spec's
`InvalidArgument`) before any key generation, attestation or network
activity — the event trace is empty — exactly when `server_url` or
`key_id` is absent (`None`); empty strings are not rejected. -/
theorem c6_none_checks :
    (∀ (env : KbsEnv) (kid : Option String),
      get_key env none kid =
        ([], .error (.invalidArgument "KBS server url can not be None"))) ∧
    (∀ (env : KbsEnv) (su : String),
      get_key env (some su) none =
        ([], .error (.invalidArgument "KBS key id can not be None"))) :=
  ⟨fun _ _ => rfl, fun _ _ => rfl⟩

/-! ## C7 -/

/-- C7: `get_key` never issues more than 3 POST attempts; with the quote
step succeeding, 3 consecutive connection-level failures yield the
terminal `RuntimeError` ("Unexpected response from Amber KBS", the
spec's `KeyBrokerUnreachable`) after exactly 3 attempts and no 4th; and
2 connection failures followed by an HTTP 200 carrying a well-formed
body let the call succeed, again with exactly 3 attempts. -/
theorem c7_attempt_budget (env : KbsEnv) (su kid : String) :
    countPosts (get_key env (some su) (some kid)).fst ≤ 3
    ∧ ((∃ q, env.getQuote (b64encode (env.genKeyPair 65537 3072).derPub) = some q) →
        (∀ j, j < 3 → env.post j = .connFail) →
        countPosts (get_key env (some su) (some kid)).fst = 3 ∧
        (get_key env (some su) (some kid)).snd =
          .error (.runtimeError "Unexpected response from Amber KBS"))
    ∧ ((∃ q, env.getQuote (b64encode (env.genKeyPair 65537 3072).derPub) = some q) →
        ∀ (body : List (String × String)) (wk ws : String)
          (wrapped_key wrapped_swk swk key : Bytes),
        env.post 0 = .connFail → env.post 1 = .connFail →
        env.post 2 = .response ⟨200, body⟩ →
        lookupJson body "wrapped_key" = some wk →
        lookupJson body "wrapped_swk" = some ws →
        b64decode wk = some wrapped_key →
        b64decode ws = some wrapped_swk →
        env.oaepDecrypt (env.genKeyPair 65537 3072).privId wrapped_swk = some swk →
        decrypt_data env.aesGcmDecrypt (some wrapped_key) (some swk) = .ok key →
        countPosts (get_key env (some su) (some kid)).fst = 3 ∧
        (get_key env (some su) (some kid)).snd = .ok key) := by
  refine ⟨?_, ?_, ?_⟩
  · rcases hq : env.getQuote (b64encode (env.genKeyPair 65537 3072).derPub) with _ | q
    · simp [get_key, hq, countPosts]
    · have hfst : (get_key env (some su) (some kid)).fst =
          [Event.keygen 65537 3072,
            Event.quote (b64encode (env.genKeyPair 65537 3072).derPub)] ++
            (retryLoop env (su ++ "/keys/" ++ kid ++ "/transfer") 3 0 none).fst := by
        simp [get_key, hq]
      have h2 : countPosts [Event.keygen 65537 3072,
          Event.quote (b64encode (env.genKeyPair 65537 3072).derPub)] = 0 := rfl
      rw [hfst, countPosts_append, h2]
      have := countPosts_retryLoop_le env (su ++ "/keys/" ++ kid ++ "/transfer") 3 0 none
      omega
  · rintro ⟨q, hq⟩ hconn
    have hloop := retryLoop_all_connFail env (su ++ "/keys/" ++ kid ++ "/transfer")
      (hconn 0 (by omega)) (hconn 1 (by omega)) (hconn 2 (by omega))
    constructor
    · have hfst : (get_key env (some su) (some kid)).fst =
          [Event.keygen 65537 3072,
            Event.quote (b64encode (env.genKeyPair 65537 3072).derPub)] ++
            (retryLoop env (su ++ "/keys/" ++ kid ++ "/transfer") 3 0 none).fst := by
        simp [get_key, hq]
      rw [hfst, hloop, countPosts_append]
      simp [countPosts]
    · simp [get_key, hq, hloop]
  · rintro ⟨q, hq⟩ body wk ws wrapped_key wrapped_swk swk key h0 h1 h2 hwk hws hdk hds hoaep hdec
    have hloop := retryLoop_two_connFail_then_200 env
      (su ++ "/keys/" ++ kid ++ "/transfer") ⟨200, body⟩ h0 h1 h2 rfl
    constructor
    · have hfst : (get_key env (some su) (some kid)).fst =
          [Event.keygen 65537 3072,
            Event.quote (b64encode (env.genKeyPair 65537 3072).derPub)] ++
            (retryLoop env (su ++ "/keys/" ++ kid ++ "/transfer") 3 0 none).fst := by
        simp [get_key, hq]
      rw [hfst, hloop, countPosts_append]
      simp [countPosts]
    · simp [get_key, hq, hloop, hwk, hws, hdk, hds, hoaep, hdec]

/-- Witness for `c7_attempt_budget`: the all-connection-failure
environment makes exactly 3 attempts and fails with the terminal
`RuntimeError`, while 2 connection failures followed by a well-formed
HTTP 200 succeed with exactly 3 attempts. -/
theorem c7_attempt_budget_witness :
    (countPosts (get_key connFailEnv (some "u") (some "k")).fst = 3 ∧
      (get_key connFailEnv (some "u") (some "k")).snd =
        .error (.runtimeError "Unexpected response from Amber KBS")) ∧
    (countPosts (get_key twoFailEnv (some "u") (some "k")).fst = 3 ∧
      (get_key twoFailEnv (some "u") (some "k")).snd = .ok [5]) :=
  ⟨(c7_attempt_budget connFailEnv "u" "k").2.1 ⟨[], rfl⟩ (fun _ _ => rfl),
   (c7_attempt_budget twoFailEnv "u" "k").2.2 ⟨[], rfl⟩
     [("wrapped_key", wk16), ("wrapped_swk", wk16)] wk16 wk16
     (List.replicate 12 0) (List.replicate 12 0) (List.replicate 16 1) [5]
     rfl rfl rfl rfl rfl (by decide) (by decide) rfl rfl⟩

/-! ## C3 -/

/-- C3 as stated is false at `tag_len = 0`: on the envelope `edZ`
(header `iv_len = 0, tag_len = 0, data_len = 1` plus one payload byte),
the code's Python slices (`[x:-0]` is `[x:0]`, `[-0:]` is `[0:]`) pass
an empty ciphertext and the whole envelope as tag, while the claim's
slices pass the payload byte as ciphertext and an empty tag; with an
AES function exposing its slice arguments the results differ. -/
theorem c3_counterexample :
    (decrypt_data aesObs (some edZ) (some [1])).toOption ≠
      (decrypt_data_spec aesObs edZ [1]).toOption := by decide

/-- C3 amended: for every envelope accepted by `decrypt_data` whose
`tag_len` header field is at least 1, the codec reads the header as
three little-endian u32s and passes to AES-GCM exactly
`iv = envelope[12 : 12+iv_len]`,
`ciphertext = envelope[12+iv_len : len-tag_len]`,
`tag = envelope[len-tag_len :]` as the claim states; when `tag_len = 0`
the Python negative-index slices diverge from those expressions
(see `c3_counterexample`). -/
theorem c3_envelope_slicing (aes : Bytes → Bytes → Bytes → Bytes → Except CnapError Bytes)
    (k ed : Bytes) (htag : 1 ≤ leU32at ed 4) :
    decrypt_data aes (some ed) (some k) = decrypt_data_spec aes ed k := by
  have h : ¬ leU32at ed 4 = 0 := by omega
  unfold decrypt_data decrypt_data_spec
  simp [h]

/-- Witness for `c3_envelope_slicing` on the envelope `ed3w`
(`iv_len = 12`, `tag_len = 16`). -/
theorem c3_envelope_slicing_witness :
    1 ≤ leU32at ed3w 4 ∧
    decrypt_data aesObs (some ed3w) (some [1]) = decrypt_data_spec aesObs ed3w [1] :=
  ⟨by decide, c3_envelope_slicing aesObs [1] ed3w (by decide)⟩

/-! ## C8 -/

/-- C8 as stated is false when the tag region reaches back into the
header: `e81`/`e82` have equal length, agree outside bytes 8–11, and
declare `tag_len = 6` on a 13-byte envelope, so the tag slice (the last
6 bytes) contains byte 8; the decryption inputs, and hence the outputs
of an AES function exposing its slices, differ. -/
theorem c8_counterexample :
    e81.length = e82.length ∧ e81.take 8 = e82.take 8 ∧
    e81.drop 12 = e82.drop 12 ∧
    (decrypt_data aesObs (some e81) (some [1])).toOption ≠
      (decrypt_data aesObs (some e82) (some [1])).toOption := by decide

/-- C8 amended: for envelopes of equal length that agree outside the
`data_len` header bytes 8–11, and whose `tag_len` satisfies
`1 ≤ tag_len` and `tag_len + 12 ≤ len` (the tag region does not reach
into the header), `decrypt_data` passes identical slices to AES-GCM and
so produces the same result under the same key: the output does not
depend on `data_len`.  Without the bound on `tag_len` the tag slice can
include bytes 8–11 (see `c8_counterexample`). -/
theorem c8_data_len_independent
    (aes : Bytes → Bytes → Bytes → Bytes → Except CnapError Bytes)
    (k e1 e2 : Bytes)
    (hlen : e1.length = e2.length)
    (h8 : e1.take 8 = e2.take 8)
    (h12 : e1.drop 12 = e2.drop 12)
    (ht1 : 1 ≤ leU32at e1 4)
    (ht2 : leU32at e1 4 + 12 ≤ e1.length) :
    decrypt_data aes (some e1) (some k) = decrypt_data aes (some e2) (some k) := by
  have hgd : ∀ i, i < 8 → e1.getD i 0 = e2.getD i 0 := by
    intro i hi
    have h1 : e1[i]? = e2[i]? := by
      rw [← List.getElem?_take_of_lt (l := e1) hi,
        ← List.getElem?_take_of_lt (l := e2) hi, h8]
    simp [List.getD, h1]
  have h0 : leU32at e1 0 = leU32at e2 0 := by
    unfold leU32at
    rw [hgd 0 (by omega), hgd 1 (by omega), hgd 2 (by omega), hgd 3 (by omega)]
  have h4 : leU32at e1 4 = leU32at e2 4 := by
    unfold leU32at
    rw [hgd 4 (by omega), hgd 5 (by omega), hgd 6 (by omega), hgd 7 (by omega)]
  have hT : ¬ leU32at e1 4 = 0 := by omega
  have hT2 : ¬ leU32at e2 4 = 0 := by rw [← h4]; exact hT
  have hl1 : ¬ e1.length < 12 := by omega
  have hl2 : ¬ e2.length < 12 := by rw [← hlen]; exact hl1
  have hiv : (e1.take (leU32at e1 0 + 12)).drop 12 =
      (e2.take (leU32at e2 0 + 12)).drop 12 := by
    rw [List.drop_take, List.drop_take, ← h0, h12]
  have hdata : (e1.take (e1.length - leU32at e1 4)).drop (leU32at e1 0 + 12) =
      (e2.take (e2.length - leU32at e2 4)).drop (leU32at e2 0 + 12) := by
    rw [List.drop_take, List.drop_take, ← h0, ← h4, ← hlen]
    have hd1 : e1.drop (leU32at e1 0 + 12) = (e1.drop 12).drop (leU32at e1 0) := by
      rw [List.drop_drop, Nat.add_comm]
    have hd2 : e2.drop (leU32at e1 0 + 12) = (e2.drop 12).drop (leU32at e1 0) := by
      rw [List.drop_drop, Nat.add_comm]
    rw [hd1, hd2, h12]
  have htagsl : e1.drop (e1.length - leU32at e1 4) =
      e2.drop (e2.length - leU32at e2 4) := by
    rw [← h4, ← hlen]
    have hd1 : e1.drop (e1.length - leU32at e1 4) =
        (e1.drop 12).drop (e1.length - leU32at e1 4 - 12) := by
      rw [List.drop_drop]
      congr 1
      omega
    have hd2 : e2.drop (e1.length - leU32at e1 4) =
        (e2.drop 12).drop (e1.length - leU32at e1 4 - 12) := by
      rw [List.drop_drop]
      congr 1
      omega
    rw [hd1, hd2, h12]
  simp only [decrypt_data]
  rw [if_neg hl1, if_neg hl2]
  simp only [if_neg hT, if_neg hT2]
  rw [hiv, hdata, htagsl]

/-- Witness for `c8_data_len_independent` on `e8w1`/`e8w2`
(`tag_len = 1` on 13-byte envelopes, differing only at byte 8). -/
theorem c8_data_len_independent_witness :
    (e8w1.length = e8w2.length ∧ e8w1.take 8 = e8w2.take 8 ∧
      e8w1.drop 12 = e8w2.drop 12 ∧
      1 ≤ leU32at e8w1 4 ∧ leU32at e8w1 4 + 12 ≤ e8w1.length) ∧
    decrypt_data aesObs (some e8w1) (some [1]) =
      decrypt_data aesObs (some e8w2) (some [1]) :=
  ⟨by decide,
   c8_data_len_independent aesObs [1] e8w1 e8w2 (by decide) (by decide)
     (by decide) (by decide) (by decide)⟩

/-! ## C4 -/

/-- C4: the claim is right and the code is wrong.  For any `kbs` value
other than the string `"amber"`, `decrypt_model` raises nothing at all:
the `ValueError(...)` guard expressions lack a `raise` and the
`if kbs == "amber"` branch has no else, so the function falls through
and returns Python `None` (`.ok none`) with no broker interaction
(empty event trace), instead of failing with the spec's
`UnsupportedBrokerType`. -/
theorem c4_unsupported_broker (env : KbsEnv) (kbs kbs_url key_id : Option JVal)
    (d : Option Bytes) (h : kbs ≠ some (JVal.jStr "amber")) :
    decrypt_model env kbs kbs_url key_id d = ([], .ok none) := by
  unfold decrypt_model
  rw [if_neg h]

/-- Witness for `c4_unsupported_broker` at `kbs = "vault"`. -/
theorem c4_unsupported_broker_witness :
    decrypt_model kbs0 (some (JVal.jStr "vault")) none none none =
      ([], .ok none) :=
  c4_unsupported_broker kbs0 (some (JVal.jStr "vault")) none none none (by decide)

/-! ## C5 -/

/-- C5: the claim is right and the code is wrong.  With the payload
marked encrypted and `kbs` absent (`None`), `decrypt_model` does not
raise `ValueError`: the source constructs `ValueError(...)` without
`raise`, `None == "amber"` is false, and the call silently returns
Python `None` (`.ok none`) for every environment and every remaining
argument. -/
theorem c5_missing_kbs_silent (env : KbsEnv) (kbs_url key_id : Option JVal)
    (d : Option Bytes) :
    decrypt_model env none kbs_url key_id d = ([], .ok none) := rfl

/-! ## C9 -/

/-- C9 as stated is false: the source runs
`model_filename.replace(".enc", "")`, which removes every occurrence of
the substring `.enc`, not only a trailing suffix.  For the URL
`http://h/a.enc.bin` the staged path is `/tmp/a.bin`, while the final
path segment with (only) a trailing `.enc` suffix stripped is
`a.enc.bin`. -/
theorem c9_counterexample :
    pathOf (get_model_info kbs0 env9) = "/tmp/a.bin" ∧
    spec_filename_of "http://h/a.enc.bin" = "a.enc.bin" ∧
    pathOf (get_model_info kbs0 env9) ≠
      "/tmp/" ++ spec_filename_of "http://h/a.enc.bin" := by decide

/-- C9 amended: for every successful retrieval, the staging path is
`/tmp/` followed by the final path segment of the model binary URL with
every occurrence of the substring `.enc` removed (Python
`str.replace(".enc", "")`) and surrounding whitespace stripped — not
only a trailing suffix. -/
theorem c9_staging_path (kenv : KbsEnv) (env : ModelEnv) (st : ModelState)
    (url : String)
    (hu : env.meta "url" = some (.jStr url))
    (hok : get_model_info kenv env = .ok st) :
    st.path = "/tmp/" ++ model_filename_of url := by
  rcases hid : env.meta "id" with _ | idv <;>
    simp only [get_model_info, hu, hid] at hok <;>
    repeat' split at hok
  all_goals first
    | (cases hok; rfl)
    | simp_all

/-- Witness for `c9_staging_path` on the URL `http://h/b.enc`, staged at
`/tmp/b`. -/
theorem c9_staging_path_witness :
    st9w.path = "/tmp/" ++ model_filename_of "http://h/b.enc" :=
  c9_staging_path kbs0 env9w st9w "http://h/b.enc" rfl rfl

/-! ## C10 -/

/-- C10: every successfully constructed model carries
`uploaded_date = 0` and all-zero metrics, whatever the metadata
endpoint returned: `get_model_info` always constructs
`ModelMetrics(0, 0, 0, 0, 0)` and passes `0` as the uploaded date. -/
theorem c10_constant_metrics (kenv : KbsEnv) (env : ModelEnv) (st : ModelState)
    (hok : get_model_info kenv env = .ok st) :
    st.model_info.uploaded_date = 0 ∧
    st.model_info.metrics = ⟨0, 0, 0, 0, 0⟩ := by
  rcases hid : env.meta "id" with _ | idv <;>
    rcases hurl : env.meta "url" with _ | urlv <;>
    simp only [get_model_info, hid, hurl] at hok <;>
    repeat' split at hok
  all_goals first
    | (cases hok; exact ⟨rfl, rfl⟩)
    | simp_all

/-- Witness for `c10_constant_metrics` at the concrete environment `env9`. -/
theorem c10_constant_metrics_witness :
    st9.model_info.uploaded_date = 0 ∧
    st9.model_info.metrics = ⟨0, 0, 0, 0, 0⟩ :=
  c10_constant_metrics kbs0 env9 st9 rfl
